import Mathlib

/-!
Shallow embedding of `src/main.py` of the script-youtube-s3 repository:
a CLI that downloads a video from YouTube and uploads the file to
S3-compatible storage.  External collaborators (the yt-dlp fetch
library, the boto3 S3 client, the decouple configuration reader and
the filesystem) are modelled as explicit behaviour records.  Every
function and command returns the ordered event trace it produces
(printed status messages, storage-client calls, temporary-directory
lifecycle events) together with its result or process outcome.
-/

namespace YtS3

/-- Python truthiness of an optional string: `None` and the empty
string are falsy, every other string is truthy. -/
def truthy : Option String → Bool
  | none => false
  | some s => !(s == "")

/-- The configuration keys read via `config(...)` (python-decouple);
`none` models a key absent from the environment and `.env` file. -/
structure Env where
  aws_access_key_id : Option String
  aws_secret_access_key : Option String
  aws_s3_region_name : Option String
  aws_s3_endpoint_url : Option String
  aws_storage_bucket_name : Option String
  deriving DecidableEq

/-- Python exceptions that can cross function boundaries in `main.py`:
decouple raises `UndefinedValueError` when a required key is absent. -/
inductive PyExc where
  | undefinedValue (key : String)
  deriving DecidableEq

/-- Calls issued to the storage SDK (client construction included). -/
inductive S3Call where
  | clientConstructed
  | headBucket (bucket : String)
  | uploadFile (bucket : String) (key : String)
  | listObjectsV2 (bucket : String) (pre : Option String)
  deriving DecidableEq

/-- The user-facing printed lines of `main.py`, abstracted from their
literal text; sizes are carried in megabytes as exact rationals. -/
inductive Msg where
  | found (title : String)
  | downloading
  | downloadedFile (name : String)
  | downloadError (e : String)
  | bucketFound (bucket : String)
  | bucketNotFound (bucket : String)
  | uploading (key : String) (sizeMB : ℚ)
  | uploaded (url : String)
  | uploadError
  | usage
  | startDownload (url : String)
  | downloadedTo (p : String)
  | downloadFailed
  | startUpload (p : String)
  | processing (url : String)
  | done
  | uploadFailed
  | filesHeader (bucket : String)
  | objEntry (key : String) (sizeMB : ℚ)
  | bucketEmpty
  | listError
  | checking
  | varOk (var : String) (masked : String)
  | varMissing (var : String)
  | missingVars (vars : List String)
  | configOk
  | fileNotFound (p : String)
  deriving DecidableEq

/-- One entry of a command's observable trace. -/
inductive Event where
  | tempDirCreated
  | tempDirRemoved
  | call (c : S3Call)
  | msg (m : Msg)
  deriving DecidableEq

/-- Process outcome of a command entry point: falling off the end
(exit 0), an explicit `sys.exit(code)`, or an uncaught exception
(the interpreter then exits non-zero with a traceback). -/
inductive ProcExit where
  | normal
  | exited (code : Nat)
  | raised (e : PyExc)
  deriving DecidableEq

/-- Whether a process outcome is a non-zero exit at the OS level. -/
def isNonZeroExit : ProcExit → Bool
  | .normal => false
  | .exited c => !(c == 0)
  | .raised _ => true

/-- The metadata dictionary returned by `extract_info`; only the
`title` field is consumed (`info.get('title', 'video')`). -/
structure InfoDict where
  title : Option String
  deriving DecidableEq

/-- A directory entry as yielded by `output_path.glob("*")`. -/
structure DirEntry where
  name : String
  isFile : Bool
  deriving DecidableEq

/-- Behaviour of the fetch library and of the destination directory
for one `download_video` call: the outcome of `extract_info`, the
outcome of `download`, and the entries that `glob("*")` yields after
the download attempt.  An `.error` models a raised exception. -/
structure FetchBehavior where
  extract_info : Except String InfoDict
  download : Except String Unit
  files_after : List DirEntry

/-- An object stored in the bucket: key and size in bytes. -/
structure S3Obj where
  key : String
  size : Nat
  deriving DecidableEq

/-- Behaviour of the S3 service for one command invocation: whether
`head_bucket`, `upload_file` and `list_objects_v2` succeed (failure
models a raised `ClientError`), and the objects the bucket holds. -/
structure S3Behavior where
  headBucketOk : Bool
  uploadOk : Bool
  listOk : Bool
  objects : List S3Obj
  deriving DecidableEq

/-- The local filesystem as seen by the upload command: existence and
size (in bytes) of local paths. -/
structure FS where
  fileExists : String → Bool
  size : String → Nat

/-- `get_s3_client` (main.py lines 15-23): reads the two required
credential keys — decouple raises `UndefinedValueError` when one is
absent — then constructs the boto3 client.  Region and endpoint have
defaults and never raise.  Returns the trace of the construction. -/
def get_s3_client (env : Env) : Except PyExc (List Event) :=
  match env.aws_access_key_id with
  | none => .error (.undefinedValue "AWS_ACCESS_KEY_ID")
  | some _ =>
    match env.aws_secret_access_key with
    | none => .error (.undefinedValue "AWS_SECRET_ACCESS_KEY")
    | some _ => .ok [Event.call S3Call.clientConstructed]

/-- `download_video` (main.py lines 25-53): resolve metadata, print the
title, download, then scan the directory for the first regular file;
any exception from the fetch library is caught and converted into the
`(none, none)` result.  The function is total: nothing propagates. -/
def download_video (fb : FetchBehavior) :
    (Option String × Option String) × List Event :=
  match fb.extract_info with
  | .error e => ((none, none), [Event.msg (Msg.downloadError e)])
  | .ok info =>
    let title := info.title.getD "video"
    let pre := [Event.msg (Msg.found title), Event.msg Msg.downloading]
    match fb.download with
    | .error e => ((none, none), pre ++ [Event.msg (Msg.downloadError e)])
    | .ok _ =>
      match fb.files_after.find? (fun f => f.isFile) with
      | some f =>
        ((some f.name, some title), pre ++ [Event.msg (Msg.downloadedFile f.name)])
      | none => ((none, none), pre)

/-- `upload_file_to_s3` (main.py lines 55-89): build a client, read the
bucket name (config errors are NOT caught and surface as `.error`),
pre-check the bucket with `head_bucket` (a `ClientError` there yields
`false` with no upload attempted), then upload with a public-read ACL
(a `ClientError` there yields `false`) and print the access URL. -/
def upload_file_to_s3 (env : Env) (s3 : S3Behavior) (fs : FS)
    (file_path : String) (s3_key : String) : Except PyExc Bool × List Event :=
  match get_s3_client env with
  | .error e => (.error e, [])
  | .ok tr0 =>
    match env.aws_storage_bucket_name with
    | none => (.error (.undefinedValue "AWS_STORAGE_BUCKET_NAME"), tr0)
    | some bucket =>
      let tr1 := tr0 ++ [Event.call (S3Call.headBucket bucket)]
      if s3.headBucketOk then
        let tr2 := tr1 ++ [Event.msg (Msg.bucketFound bucket)]
        let size_mb : ℚ := (fs.size file_path : ℚ) / (1024 * 1024)
        let tr3 := tr2 ++ [Event.msg (Msg.uploading s3_key size_mb),
                           Event.call (S3Call.uploadFile bucket s3_key)]
        if s3.uploadOk then
          let url :=
            if truthy env.aws_s3_endpoint_url then
              env.aws_s3_endpoint_url.getD "" ++ "/" ++ bucket ++ "/" ++ s3_key
            else
              "https://" ++ bucket ++ ".s3.amazonaws.com/" ++ s3_key
          (.ok true, tr3 ++ [Event.msg (Msg.uploaded url)])
        else
          (.ok false, tr3 ++ [Event.msg Msg.uploadError])
      else
        (.ok false, tr1 ++ [Event.msg (Msg.bucketNotFound bucket)])

/-- `with tempfile.TemporaryDirectory()`: the directory is created on
entry and removed on every exit path, including `sys.exit` (SystemExit)
and other exceptions propagating out of the block.  Modelled from the
CPython context-manager semantics of the standard library, which is an
out-of-scope collaborator of this repository. -/
def withTempDir (body : List Event × ProcExit) : List Event × ProcExit :=
  (Event.tempDirCreated :: (body.1 ++ [Event.tempDirRemoved]), body.2)

/-- `Path(p).name`: the final path component. -/
def basename (p : String) : String := (p.splitOn "/").getLastD p

/-- Command `download` (main.py lines 91-111): takes the URL from
`sys.argv[1]`; exits 1 when the argument is missing; the temporary
directory is scoped around the download; exits 1 on download failure. -/
def download (argv : List String) (fb : FetchBehavior) : List Event × ProcExit :=
  if argv.length < 2 then
    ([Event.msg Msg.usage], .exited 1)
  else
    let url := argv.getD 1 ""
    withTempDir
      (let r := download_video fb
       let pre := [Event.msg (Msg.startDownload url)]
       match r.1.1 with
       | some f => (pre ++ r.2 ++ [Event.msg (Msg.downloadedTo f)], .normal)
       | none => (pre ++ r.2 ++ [Event.msg Msg.downloadFailed], .exited 1))

/-- Command `upload` (main.py lines 113-135): validates that the local
file exists before any storage work (exit 1 otherwise), computes the
key `folder/basename`, delegates to the uploader and exits 1 when it
reports failure; exceptions from the uploader propagate. -/
def upload (file_path folder : String) (env : Env) (s3 : S3Behavior)
    (fs : FS) : List Event × ProcExit :=
  if fs.fileExists file_path then
    let s3_key := folder ++ "/" ++ basename file_path
    let pre := [Event.msg (Msg.startUpload file_path)]
    let u := upload_file_to_s3 env s3 fs file_path s3_key
    match u.1 with
    | .error e => (pre ++ u.2, .raised e)
    | .ok true => (pre ++ u.2, .normal)
    | .ok false => (pre ++ u.2, .exited 1)
  else
    ([Event.msg (Msg.fileNotFound file_path)], .exited 1)

/-- Command `youtube_to_s3` (main.py lines 137-167): download into a
scoped temporary directory, then upload under `folder/filename`; exits
1 when either step fails; exceptions from the uploader propagate (the
temporary directory is still removed on the way out). -/
def youtube_to_s3 (url folder : String) (fb : FetchBehavior) (env : Env)
    (s3 : S3Behavior) (fs : FS) : List Event × ProcExit :=
  let pre := [Event.msg (Msg.processing url)]
  let body :=
    let r := download_video fb
    match r.1.1 with
    | none => (r.2 ++ [Event.msg Msg.downloadFailed], ProcExit.exited 1)
    | some fname =>
      let s3_key := folder ++ "/" ++ fname
      let u := upload_file_to_s3 env s3 fs fname s3_key
      match u.1 with
      | .error e => (r.2 ++ u.2, ProcExit.raised e)
      | .ok true => (r.2 ++ u.2 ++ [Event.msg Msg.done], ProcExit.normal)
      | .ok false => (r.2 ++ u.2 ++ [Event.msg Msg.uploadFailed], ProcExit.exited 1)
  let w := withTempDir body
  (pre ++ w.1, w.2)

/-- String prefix test by character list, used to model key prefixes. -/
def strIsPrefixOf (p s : String) : Bool := p.data.isPrefixOf s.data

/-- The S3 `list_objects_v2` operation of the storage service.
Modelled from the spec: the storage client is an out-of-scope
collaborator "capable of ... listing objects under a key prefix", so
listing with a prefix returns exactly the objects whose keys start
with it, and listing without one returns every object. -/
def list_objects_v2 (objects : List S3Obj) : Option String → List S3Obj
  | none => objects
  | some p => objects.filter (fun o => strIsPrefixOf p o.key)

/-- Command `list_bucket` (main.py lines 169-198): an optional
`--folder` value is used as prefix `folder/` when truthy; prints each
returned key with its size in megabytes, or an empty-bucket message
when the response has no contents; a `ClientError` exits 1; config
errors propagate. -/
def list_bucket (folder : Option String) (env : Env) (s3 : S3Behavior) :
    List Event × ProcExit :=
  match get_s3_client env with
  | .error e => ([], .raised e)
  | .ok tr0 =>
    match env.aws_storage_bucket_name with
    | none => (tr0, .raised (.undefinedValue "AWS_STORAGE_BUCKET_NAME"))
    | some bucket =>
      let pre := if truthy folder then some (folder.getD "" ++ "/") else none
      let tr1 := tr0 ++ [Event.call (S3Call.listObjectsV2 bucket pre)]
      if s3.listOk then
        match list_objects_v2 s3.objects pre with
        | [] => (tr1 ++ [Event.msg Msg.bucketEmpty], .normal)
        | o0 :: rest =>
          (tr1 ++ [Event.msg (Msg.filesHeader bucket)] ++
            (o0 :: rest).map (fun o =>
              Event.msg (Msg.objEntry o.key ((o.size : ℚ) / (1024 * 1024)))),
           .normal)
      else
        (tr1 ++ [Event.msg Msg.listError], .exited 1)

/-- The required keys checked by `check_config` (main.py lines 207-211). -/
def required_vars : List String :=
  ["AWS_ACCESS_KEY_ID", "AWS_SECRET_ACCESS_KEY", "AWS_STORAGE_BUCKET_NAME"]

/-- Lookup of a required key in the environment, as `config(var)` does
for the keys `check_config` iterates over. -/
def envLookup (env : Env) : String → Option String := fun var =>
  if var = "AWS_ACCESS_KEY_ID" then env.aws_access_key_id
  else if var = "AWS_SECRET_ACCESS_KEY" then env.aws_secret_access_key
  else if var = "AWS_STORAGE_BUCKET_NAME" then env.aws_storage_bucket_name
  else none

/-- The masked display of a value, main.py line 217:
`'*' * (len(value) - 4) + value[-4:]`.  In Python a negative repeat
count yields the empty string and `value[-4:]` of a string shorter
than four characters is the whole string; natural subtraction gives
exactly that behaviour. -/
def maskValue (v : List Char) : List Char :=
  List.replicate (v.length - 4) '*' ++ v.drop (v.length - 4)

/-- The line `check_config` prints for one required key: the masked
value when the key reads successfully, a missing-marker otherwise
(the bare `except:` catches the decouple error). -/
def checkVar (env : Env) (var : String) : Event :=
  match envLookup env var with
  | some value => Event.msg (Msg.varOk var (String.mk (maskValue value.data)))
  | none => Event.msg (Msg.varMissing var)

/-- Command `check_config` (main.py lines 200-227): print one line per
required key, collect the missing ones, and exit 1 when any is
missing. -/
def check_config (env : Env) : List Event × ProcExit :=
  let evs := required_vars.map (checkVar env)
  let missing := required_vars.filter (fun var => (envLookup env var).isNone)
  let tail :=
    if missing.isEmpty then ([Event.msg Msg.configOk], ProcExit.normal)
    else ([Event.msg (Msg.missingVars missing)], ProcExit.exited 1)
  (Event.msg Msg.checking :: (evs ++ tail.1), tail.2)

/-- Trace observers used by the theorems below. -/
def isCreate : Event → Bool
  | .tempDirCreated => true
  | _ => false

def isRemove : Event → Bool
  | .tempDirRemoved => true
  | _ => false

/-- The storage-client calls appearing in a trace, in order. -/
def s3Calls (t : List Event) : List S3Call :=
  t.filterMap (fun e => match e with
    | Event.call c => some c
    | _ => none)

/-- The upload calls appearing in a trace, in order. -/
def uploadCalls (t : List Event) : List S3Call :=
  t.filterMap (fun e => match e with
    | Event.call (S3Call.uploadFile b k) => some (S3Call.uploadFile b k)
    | _ => none)

/-- The `(key, size-in-MB)` listing lines printed in a trace. -/
def printedEntries (t : List Event) : List (String × ℚ) :=
  t.filterMap (fun e => match e with
    | Event.msg (Msg.objEntry k s) => some (k, s)
    | _ => none)

/-! ## Claims -/

/-- C1: for every URL and destination directory, if the fetch library
raises any exception during metadata resolution or during the download
call, `download_video` catches it and returns the `(none, none)` pair.
`download_video` is a total function in this embedding — the `except`
block at main.py lines 51-53 covers the whole body — so no
fetch-library exception crosses its boundary to the caller. -/
theorem C1_download_video_catches_all (fb : FetchBehavior)
    (h : (∃ e, fb.extract_info = .error e) ∨ (∃ e, fb.download = .error e)) :
    (download_video fb).1 = (none, none) := by
  rcases hx : fb.extract_info with e | info
  · simp [download_video, hx]
  · rcases hd : fb.download with e | u
    · simp [download_video, hx, hd]
    · exfalso
      rcases h with ⟨a, ha⟩ | ⟨a, ha⟩
      · rw [hx] at ha; exact Except.noConfusion ha
      · rw [hd] at ha; exact Except.noConfusion ha

/-- Witness for C1 at a concrete failing metadata resolution. -/
theorem C1_download_video_catches_all_witness :
    (download_video ⟨Except.error "network unreachable", Except.ok (),
      [⟨"half.mp4.part", true⟩]⟩).1 = (none, none) :=
  C1_download_video_catches_all _ (Or.inl ⟨"network unreachable", rfl⟩)

/-- C2: whenever the `head_bucket` pre-check raises a `ClientError`,
`upload_file_to_s3` returns `false` and the trace contains no
`upload_file` call at all: the upload is never attempted. -/
theorem C2_head_bucket_failure_skips_upload (env : Env) (s3 : S3Behavior)
    (fs : FS) (fp k bucket : String)
    (hak : env.aws_access_key_id.isSome = true)
    (hsk : env.aws_secret_access_key.isSome = true)
    (hb : env.aws_storage_bucket_name = some bucket)
    (hh : s3.headBucketOk = false) :
    (upload_file_to_s3 env s3 fs fp k).1 = .ok false ∧
    uploadCalls (upload_file_to_s3 env s3 fs fp k).2 = [] := by
  rcases hA : env.aws_access_key_id with _ | a
  · rw [hA] at hak; simp at hak
  rcases hS : env.aws_secret_access_key with _ | b
  · rw [hS] at hsk; simp at hsk
  simp [upload_file_to_s3, get_s3_client, hA, hS, hb, hh, uploadCalls]

/-- Witness for C2 at a concrete environment with a failing bucket
pre-check. -/
theorem C2_head_bucket_failure_skips_upload_witness :
    (upload_file_to_s3 ⟨some "AK", some "SK", none, none, some "bkt"⟩
      ⟨false, true, true, []⟩ ⟨fun _ => true, fun _ => 0⟩
      "film.mp4" "clips/film.mp4").1 = .ok false ∧
    uploadCalls (upload_file_to_s3 ⟨some "AK", some "SK", none, none, some "bkt"⟩
      ⟨false, true, true, []⟩ ⟨fun _ => true, fun _ => 0⟩
      "film.mp4" "clips/film.mp4").2 = [] :=
  C2_head_bucket_failure_skips_upload _ _ _ _ _ "bkt" rfl rfl rfl rfl

/-- C3: when the file-path argument of the `upload` command does not
name an existing local file, the command exits with status 1 and its
trace contains no storage-client call whatsoever — no client
construction, no bucket check, no upload. -/
theorem C3_missing_file_no_storage_calls (fp folder : String) (env : Env)
    (s3 : S3Behavior) (fs : FS) (h : fs.fileExists fp = false) :
    (upload fp folder env s3 fs).2 = .exited 1 ∧
    s3Calls (upload fp folder env s3 fs).1 = [] := by
  simp [upload, h, s3Calls]

/-- Witness for C3 at a concrete missing file. -/
theorem C3_missing_file_no_storage_calls_witness :
    (upload "missing.mp4" "youtube.data"
      ⟨some "AK", some "SK", none, none, some "bkt"⟩
      ⟨true, true, true, []⟩ ⟨fun _ => false, fun _ => 0⟩).2 = .exited 1 ∧
    s3Calls (upload "missing.mp4" "youtube.data"
      ⟨some "AK", some "SK", none, none, some "bkt"⟩
      ⟨true, true, true, []⟩ ⟨fun _ => false, fun _ => 0⟩).1 = [] :=
  C3_missing_file_no_storage_calls _ _ _ _ _ rfl

/-- C4 as stated is false: when the fetch library raises during the
download call after a file was already written to the destination
directory (e.g. a half-finished media file), `download_video` takes the
`except` branch at main.py line 51 and returns an absent path even
though a regular file exists in the directory after the attempt. -/
theorem C4_counterexample :
    (download_video ⟨Except.ok ⟨some "clip"⟩, Except.error "timed out",
      [⟨"clip.mp4", true⟩]⟩).1.1 = none ∧
    (FetchBehavior.files_after ⟨Except.ok ⟨some "clip"⟩,
      Except.error "timed out", [⟨"clip.mp4", true⟩]⟩).any
        (fun f => f.isFile) = true :=
  ⟨rfl, rfl⟩

/-- C4 amended: for every `download_video` call in which the fetch
library does not raise, the returned file path is present iff at least
one regular file exists in the destination directory after the
download; and whenever the path is absent, the title is absent too, so
both components are absent together. -/
theorem C4_amended_path_iff_file_found (fb : FetchBehavior)
    (info : InfoDict) (hx : fb.extract_info = .ok info)
    (hd : fb.download = .ok ()) :
    ((download_video fb).1.1.isSome = fb.files_after.any (fun f => f.isFile)) ∧
    ((download_video fb).1.1.isNone = (download_video fb).1.2.isNone) := by
  rcases hf : fb.files_after.find? (fun f => f.isFile) with _ | f
  · have hany : fb.files_after.any (fun f => f.isFile) = false := by
      rw [List.any_eq_false]
      exact List.find?_eq_none.mp hf
    simp [download_video, hx, hd, hf, hany]
  · have hany : fb.files_after.any (fun f => f.isFile) = true :=
      List.any_eq_true.mpr
        ⟨f, List.mem_of_find?_eq_some hf, List.find?_some hf⟩
    simp [download_video, hx, hd, hf, hany]

/-- Witness for the amended C4 at a concrete successful download. -/
theorem C4_amended_path_iff_file_found_witness :
    ((download_video ⟨Except.ok ⟨some "clip"⟩, Except.ok (),
        [⟨"clip.mp4", true⟩]⟩).1.1.isSome =
      (FetchBehavior.files_after ⟨Except.ok ⟨some "clip"⟩, Except.ok (),
        [⟨"clip.mp4", true⟩]⟩).any (fun f => f.isFile)) ∧
    ((download_video ⟨Except.ok ⟨some "clip"⟩, Except.ok (),
        [⟨"clip.mp4", true⟩]⟩).1.1.isNone =
      (download_video ⟨Except.ok ⟨some "clip"⟩, Except.ok (),
        [⟨"clip.mp4", true⟩]⟩).1.2.isNone) :=
  C4_amended_path_iff_file_found _ ⟨some "clip"⟩ rfl rfl

/-- C5 as stated is false: a missing required configuration key (here
the bucket name) is not caught and not surfaced as a boolean result —
`upload_file_to_s3` reads `config('AWS_STORAGE_BUCKET_NAME')` outside
any `try` block, and the `upload` command wraps nothing, so the
`UndefinedValueError` propagates and terminates the command as a
raised fault. -/
theorem C5_counterexample :
    (upload "film.mp4" "youtube.data"
      ⟨some "AK", some "SK", none, none, none⟩
      ⟨true, true, true, []⟩ ⟨fun _ => true, fun _ => 0⟩).2 =
    ProcExit.raised (PyExc.undefinedValue "AWS_STORAGE_BUCKET_NAME") := rfl

/-- C5 amended: a missing bucket-name key makes both the upload and
the combined command terminate with the uncaught
`UndefinedValueError` — a raised fault, not a boolean/optional result;
the process exit is still non-zero because the interpreter exits
non-zero on an uncaught exception.  Only storage-client
(`ClientError`) failures are converted to boolean results. -/
theorem C5_amended_config_error_propagates (env : Env) (s3 : S3Behavior)
    (fs : FS) (fp folder url : String) (fb : FetchBehavior)
    (f : DirEntry) (info : InfoDict)
    (hak : env.aws_access_key_id.isSome = true)
    (hsk : env.aws_secret_access_key.isSome = true)
    (hb : env.aws_storage_bucket_name = none)
    (hex : fs.fileExists fp = true)
    (hx : fb.extract_info = .ok info) (hd : fb.download = .ok ())
    (hf : fb.files_after.find? (fun d => d.isFile) = some f) :
    (upload fp folder env s3 fs).2 =
      .raised (.undefinedValue "AWS_STORAGE_BUCKET_NAME") ∧
    (youtube_to_s3 url folder fb env s3 fs).2 =
      .raised (.undefinedValue "AWS_STORAGE_BUCKET_NAME") ∧
    isNonZeroExit (upload fp folder env s3 fs).2 = true := by
  rcases hA : env.aws_access_key_id with _ | a
  · rw [hA] at hak; simp at hak
  rcases hS : env.aws_secret_access_key with _ | b
  · rw [hS] at hsk; simp at hsk
  refine ⟨?_, ?_, ?_⟩ <;>
    simp [upload, youtube_to_s3, download_video, upload_file_to_s3,
      get_s3_client, withTempDir, hA, hS, hb, hex, hx, hd, hf, isNonZeroExit]

/-- Witness for the amended C5 at a concrete environment with the
bucket name unset. -/
theorem C5_amended_config_error_propagates_witness :
    (upload "film.mp4" "clips" ⟨some "AK", some "SK", none, none, none⟩
      ⟨true, true, true, []⟩ ⟨fun _ => true, fun _ => 0⟩).2 =
      .raised (.undefinedValue "AWS_STORAGE_BUCKET_NAME") ∧
    (youtube_to_s3 "https://youtu.be/x" "clips"
      ⟨Except.ok ⟨some "clip"⟩, Except.ok (), [⟨"clip.mp4", true⟩]⟩
      ⟨some "AK", some "SK", none, none, none⟩
      ⟨true, true, true, []⟩ ⟨fun _ => true, fun _ => 0⟩).2 =
      .raised (.undefinedValue "AWS_STORAGE_BUCKET_NAME") ∧
    isNonZeroExit (upload "film.mp4" "clips"
      ⟨some "AK", some "SK", none, none, none⟩
      ⟨true, true, true, []⟩ ⟨fun _ => true, fun _ => 0⟩).2 = true :=
  C5_amended_config_error_propagates _ _ _ _ _ "https://youtu.be/x" _
    ⟨"clip.mp4", true⟩ ⟨some "clip"⟩ rfl rfl rfl rfl rfl rfl rfl

/-- Helper: the per-variable line for a readable key appears in the
`check_config` trace, on both the all-present and the missing branch. -/
lemma varOk_mem_check_config (env : Env) (var value : String)
    (hv : var ∈ required_vars) (hl : envLookup env var = some value) :
    Event.msg (Msg.varOk var (String.mk (maskValue value.data))) ∈
      (check_config env).1 := by
  have h1 : checkVar env var =
      Event.msg (Msg.varOk var (String.mk (maskValue value.data))) := by
    simp [checkVar, hl]
  have h2 : Event.msg (Msg.varOk var (String.mk (maskValue value.data))) ∈
      required_vars.map (checkVar env) := by
    rw [← h1]
    exact List.mem_map_of_mem _ hv
  exact List.mem_cons_of_mem _ (List.mem_append_left _ h2)

/-- C6: for every required key read successfully with a value of length
at least four, `check_config` prints the masked form, which has the same
total length as the value, ends in the value's exact last four
characters, and consists of the mask placeholder before that. -/
theorem C6_masking_law (env : Env) (var value : String)
    (hv : var ∈ required_vars) (hl : envLookup env var = some value)
    (h4 : 4 ≤ value.data.length) :
    Event.msg (Msg.varOk var (String.mk (maskValue value.data))) ∈
      (check_config env).1 ∧
    (maskValue value.data).length = value.data.length ∧
    (maskValue value.data).drop (value.data.length - 4) =
      value.data.drop (value.data.length - 4) ∧
    (maskValue value.data).take (value.data.length - 4) =
      List.replicate (value.data.length - 4) '*' := by
  refine ⟨varOk_mem_check_config env var value hv hl, ?_, ?_, ?_⟩
  · unfold maskValue
    simp only [List.length_append, List.length_replicate, List.length_drop]
    omega
  · unfold maskValue
    exact List.drop_left' (List.length_replicate _ _)
  · unfold maskValue
    exact List.take_left' (List.length_replicate _ _)

/-- Witness for C6 at a concrete eight-character credential. -/
theorem C6_masking_law_witness :
    Event.msg (Msg.varOk "AWS_ACCESS_KEY_ID"
        (String.mk (maskValue "ABCDEFGH".data))) ∈
      (check_config ⟨some "ABCDEFGH", none, none, none, none⟩).1 ∧
    (maskValue "ABCDEFGH".data).length = "ABCDEFGH".data.length ∧
    (maskValue "ABCDEFGH".data).drop ("ABCDEFGH".data.length - 4) =
      "ABCDEFGH".data.drop ("ABCDEFGH".data.length - 4) ∧
    (maskValue "ABCDEFGH".data).take ("ABCDEFGH".data.length - 4) =
      List.replicate ("ABCDEFGH".data.length - 4) '*' :=
  C6_masking_law ⟨some "ABCDEFGH", none, none, none, none⟩
    "AWS_ACCESS_KEY_ID" "ABCDEFGH" (by simp [required_vars]) rfl (by decide)

/-- C10: for a required key whose value is shorter than four characters
— or exactly four — the masked form `check_config` prints is the value
itself: the mask part is empty and every character is shown. -/
theorem C10_short_values_shown_unmasked (env : Env) (var value : String)
    (hv : var ∈ required_vars) (hl : envLookup env var = some value)
    (h4 : value.data.length < 4 ∨ value.data.length = 4) :
    Event.msg (Msg.varOk var (String.mk (maskValue value.data))) ∈
      (check_config env).1 ∧
    maskValue value.data = value.data := by
  refine ⟨varOk_mem_check_config env var value hv hl, ?_⟩
  have hle : value.data.length ≤ 4 := by omega
  unfold maskValue
  rw [Nat.sub_eq_zero_of_le hle]
  simp

/-- Witness for C10 at a concrete three-character value. -/
theorem C10_short_values_shown_unmasked_witness :
    Event.msg (Msg.varOk "AWS_STORAGE_BUCKET_NAME"
        (String.mk (maskValue "abc".data))) ∈
      (check_config ⟨some "k", some "s", none, none, some "abc"⟩).1 ∧
    maskValue "abc".data = "abc".data :=
  C10_short_values_shown_unmasked ⟨some "k", some "s", none, none, some "abc"⟩
    "AWS_STORAGE_BUCKET_NAME" "abc" (by simp [required_vars]) rfl
    (Or.inl (by decide))

/-- Helper: `download_video` emits no temporary-directory events. -/
lemma download_video_no_tempdir_events (fb : FetchBehavior) :
    (download_video fb).2.countP isCreate = 0 ∧
    (download_video fb).2.countP isRemove = 0 := by
  rcases hx : fb.extract_info with e | info <;>
  rcases hd : fb.download with e2 | u <;>
  rcases hf : fb.files_after.find? (fun f => f.isFile) with _ | f <;>
  simp [download_video, hx, hd, hf, isCreate, isRemove,
    List.countP_cons, List.countP_append]

/-- Helper: `upload_file_to_s3` emits no temporary-directory events. -/
lemma upload_file_no_tempdir_events (env : Env) (s3 : S3Behavior) (fs : FS)
    (fp k : String) :
    (upload_file_to_s3 env s3 fs fp k).2.countP isCreate = 0 ∧
    (upload_file_to_s3 env s3 fs fp k).2.countP isRemove = 0 := by
  rcases hA : env.aws_access_key_id with _ | a <;>
  rcases hS : env.aws_secret_access_key with _ | b <;>
  rcases hB : env.aws_storage_bucket_name with _ | bk <;>
  rcases hH : s3.headBucketOk <;>
  rcases hU : s3.uploadOk <;>
  simp [upload_file_to_s3, get_s3_client, hA, hS, hB, hH, hU,
    isCreate, isRemove, List.countP_cons, List.countP_append]

/-- C7: in the traces of the download and the combined command, the
number of temporary-directory removals equals the number of creations:
every temporary directory created before a download is removed by the
time the command finishes, on the success path, on every failure path,
and on early non-zero exits. -/
theorem C7_tempdir_always_cleaned (argv : List String) (fb : FetchBehavior)
    (url folder : String) (env : Env) (s3 : S3Behavior) (fs : FS) :
    ((download argv fb).1.countP isCreate =
      (download argv fb).1.countP isRemove) ∧
    ((youtube_to_s3 url folder fb env s3 fs).1.countP isCreate =
      (youtube_to_s3 url folder fb env s3 fs).1.countP isRemove) := by
  have hdv := download_video_no_tempdir_events fb
  constructor
  · by_cases h : argv.length < 2
    · simp [download, h, isCreate, isRemove, List.countP_cons]
    · rcases hr : (download_video fb).1.1 with _ | f <;>
        simp [download, h, hr, withTempDir, List.countP_cons,
          List.countP_append, isCreate, isRemove, hdv.1, hdv.2]
  · rcases hr : (download_video fb).1.1 with _ | f
    · simp [youtube_to_s3, hr, withTempDir, List.countP_cons,
        List.countP_append, isCreate, isRemove, hdv.1, hdv.2]
    · have hup := upload_file_no_tempdir_events env s3 fs f (folder ++ "/" ++ f)
      rcases hu : (upload_file_to_s3 env s3 fs f (folder ++ "/" ++ f)).1
        with e | bb
      · simp [youtube_to_s3, hr, hu, withTempDir, List.countP_cons,
          List.countP_append, isCreate, isRemove, hdv.1, hdv.2, hup.1, hup.2]
      · rcases bb <;>
          simp [youtube_to_s3, hr, hu, withTempDir, List.countP_cons,
            List.countP_append, isCreate, isRemove, hdv.1, hdv.2,
            hup.1, hup.2]

/-- C8: on a successful upload, the printed access URL is
`endpoint/bucket/key` when a custom endpoint is configured — set to a
non-empty value, the truthiness test of main.py line 79 — and the
default virtual-hosted-style `https://bucket.s3.amazonaws.com/key`
otherwise. -/
theorem C8_access_url (env : Env) (s3 : S3Behavior) (fs : FS)
    (fp k bucket : String)
    (hak : env.aws_access_key_id.isSome = true)
    (hsk : env.aws_secret_access_key.isSome = true)
    (hb : env.aws_storage_bucket_name = some bucket)
    (hh : s3.headBucketOk = true) (hu : s3.uploadOk = true) :
    (truthy env.aws_s3_endpoint_url = true →
      Event.msg (Msg.uploaded (env.aws_s3_endpoint_url.getD "" ++ "/" ++
        bucket ++ "/" ++ k)) ∈ (upload_file_to_s3 env s3 fs fp k).2) ∧
    (truthy env.aws_s3_endpoint_url = false →
      Event.msg (Msg.uploaded ("https://" ++ bucket ++ ".s3.amazonaws.com/"
        ++ k)) ∈ (upload_file_to_s3 env s3 fs fp k).2) := by
  rcases hA : env.aws_access_key_id with _ | a
  · rw [hA] at hak; simp at hak
  rcases hS : env.aws_secret_access_key with _ | b
  · rw [hS] at hsk; simp at hsk
  constructor <;> intro ht <;>
    simp [upload_file_to_s3, get_s3_client, hA, hS, hb, hh, hu, ht]

/-- Witness for C8 at a concrete custom endpoint. -/
theorem C8_access_url_witness :
    Event.msg (Msg.uploaded ((some "https://storage.example.net").getD ""
        ++ "/" ++ "bkt" ++ "/" ++ "clips/a.mp4")) ∈
      (upload_file_to_s3
        ⟨some "AK", some "SK", none, some "https://storage.example.net",
          some "bkt"⟩
        ⟨true, true, true, []⟩ ⟨fun _ => true, fun _ => 7340032⟩
        "a.mp4" "clips/a.mp4").2 :=
  (C8_access_url
    ⟨some "AK", some "SK", none, some "https://storage.example.net",
      some "bkt"⟩
    ⟨true, true, true, []⟩ ⟨fun _ => true, fun _ => 7340032⟩
    "a.mp4" "clips/a.mp4" "bkt" rfl rfl rfl rfl rfl).1 rfl

/-- Helper: the listing lines extracted from a block of object-entry
messages are exactly the mapped objects. -/
lemma printedEntries_map_objEntry (l : List S3Obj) (f : S3Obj → ℚ) :
    printedEntries (l.map (fun o => Event.msg (Msg.objEntry o.key (f o)))) =
    l.map (fun o => (o.key, f o)) := by
  induction l with
  | nil => rfl
  | cons a t ih =>
    simp only [List.map_cons, printedEntries, List.filterMap_cons] at ih ⊢
    rw [ih]

/-- Helper: storage calls contribute no listing lines. -/
lemma printedEntries_cons_call (c : S3Call) (t : List Event) :
    printedEntries (Event.call c :: t) = printedEntries t := rfl

/-- Helper: the listing header contributes no listing lines. -/
lemma printedEntries_cons_filesHeader (b : String) (t : List Event) :
    printedEntries (Event.msg (Msg.filesHeader b) :: t) = printedEntries t :=
  rfl

/-- Helper: the empty-bucket message contributes no listing lines. -/
lemma printedEntries_cons_bucketEmpty (t : List Event) :
    printedEntries (Event.msg Msg.bucketEmpty :: t) = printedEntries t := rfl

/-- Helper: an object-entry message contributes its listing line. -/
lemma printedEntries_cons_objEntry (k : String) (q : ℚ) (t : List Event) :
    printedEntries (Event.msg (Msg.objEntry k q) :: t) =
    (k, q) :: printedEntries t := rfl

/-- C9 as stated is false at the empty `--folder` value: `--folder ""`
is falsy in Python (main.py line 183), so the listing call is issued
with no prefix at all — not with prefix `"/"` — and keys outside that
prefix are printed. -/
theorem C9_counterexample :
    Event.call (S3Call.listObjectsV2 "bkt" (some "/")) ∉
      (list_bucket (some "") ⟨some "AK", some "SK", none, none, some "bkt"⟩
        ⟨true, true, true, [⟨"other/b.mp4", 1048576⟩]⟩).1 ∧
    Event.msg (Msg.objEntry "other/b.mp4" ((1048576 : ℚ) / (1024 * 1024))) ∈
      (list_bucket (some "") ⟨some "AK", some "SK", none, none, some "bkt"⟩
        ⟨true, true, true, [⟨"other/b.mp4", 1048576⟩]⟩).1 ∧
    strIsPrefixOf "/" "other/b.mp4" = false := by
  refine ⟨?_, ?_, by decide⟩ <;>
    simp [list_bucket, get_s3_client, truthy, list_objects_v2]

/-- C9 amended: for every NON-EMPTY `--folder` value f, the listing
call is issued with key prefix `f/` and exactly the keys under that
prefix are printed, each with its size in megabytes; an empty result is
reported as an empty bucket; a storage-client error during listing
exits 1.  (With an empty `--folder` value the flag is falsy and the
listing is issued with no prefix.) -/
theorem C9_amended_listing (folder : String) (env : Env) (s3 : S3Behavior)
    (bucket : String) (hne : folder ≠ "")
    (hak : env.aws_access_key_id.isSome = true)
    (hsk : env.aws_secret_access_key.isSome = true)
    (hb : env.aws_storage_bucket_name = some bucket) :
    (s3.listOk = true →
      Event.call (S3Call.listObjectsV2 bucket (some (folder ++ "/"))) ∈
        (list_bucket (some folder) env s3).1 ∧
      printedEntries (list_bucket (some folder) env s3).1 =
        (s3.objects.filter
            (fun o => strIsPrefixOf (folder ++ "/") o.key)).map
          (fun o => (o.key, (o.size : ℚ) / (1024 * 1024))) ∧
      ((s3.objects.filter
          (fun o => strIsPrefixOf (folder ++ "/") o.key)) = []
        → Event.msg Msg.bucketEmpty ∈ (list_bucket (some folder) env s3).1))
    ∧
    (s3.listOk = false →
      (list_bucket (some folder) env s3).2 = .exited 1) := by
  rcases hA : env.aws_access_key_id with _ | a
  · rw [hA] at hak; simp at hak
  rcases hS : env.aws_secret_access_key with _ | b
  · rw [hS] at hsk; simp at hsk
  have htr : truthy (some folder) = true := by simp [truthy, hne]
  constructor
  · intro hl
    rcases hC : (s3.objects.filter
        (fun o => strIsPrefixOf (folder ++ "/") o.key))
      with _ | ⟨o0, rest⟩
    · refine ⟨?_, ?_, fun _ => ?_⟩ <;>
        simp [list_bucket, get_s3_client, hA, hS, hb, htr, hl,
          list_objects_v2, hC, printedEntries]
    · refine ⟨?_, ?_, fun hcontra => ?_⟩
      · simp [list_bucket, get_s3_client, hA, hS, hb, htr, hl,
          list_objects_v2, hC]
      · simp [list_bucket, get_s3_client, hA, hS, hb, htr, hl,
          list_objects_v2, hC, printedEntries_map_objEntry,
          printedEntries_cons_call, printedEntries_cons_filesHeader,
          printedEntries_cons_bucketEmpty, printedEntries_cons_objEntry]
      · rw [hC] at hcontra
        exact List.noConfusion hcontra
  · intro hl
    simp [list_bucket, get_s3_client, hA, hS, hb, htr, hl]

/-- Witness for the amended C9: the spec's end-to-end scenario 2, a
bucket holding `clips/a.mp4` (5 MB) and `other/b.mp4` (1 MB), listed
with `--folder clips`. -/
theorem C9_amended_listing_witness :
    Event.call (S3Call.listObjectsV2 "bkt" (some ("clips" ++ "/"))) ∈
      (list_bucket (some "clips")
        ⟨some "AK", some "SK", none, none, some "bkt"⟩
        ⟨true, true, true,
          [⟨"clips/a.mp4", 5242880⟩, ⟨"other/b.mp4", 1048576⟩]⟩).1 ∧
    printedEntries (list_bucket (some "clips")
        ⟨some "AK", some "SK", none, none, some "bkt"⟩
        ⟨true, true, true,
          [⟨"clips/a.mp4", 5242880⟩, ⟨"other/b.mp4", 1048576⟩]⟩).1 =
      ((S3Behavior.objects ⟨true, true, true,
          [⟨"clips/a.mp4", 5242880⟩, ⟨"other/b.mp4", 1048576⟩]⟩).filter
        (fun o => strIsPrefixOf ("clips" ++ "/") o.key)).map
          (fun o => (o.key, (o.size : ℚ) / (1024 * 1024))) :=
  ⟨((C9_amended_listing "clips"
      ⟨some "AK", some "SK", none, none, some "bkt"⟩
      ⟨true, true, true,
        [⟨"clips/a.mp4", 5242880⟩, ⟨"other/b.mp4", 1048576⟩]⟩
      "bkt" (by simp) rfl rfl rfl).1 rfl).1,
   ((C9_amended_listing "clips"
      ⟨some "AK", some "SK", none, none, some "bkt"⟩
      ⟨true, true, true,
        [⟨"clips/a.mp4", 5242880⟩, ⟨"other/b.mp4", 1048576⟩]⟩
      "bkt" (by simp) rfl rfl rfl).1 rfl).2.1⟩

end YtS3
